import Mathlib

/-!
Verification development for the similar-students matching pipeline
(`src/controllers/similarStudents.ts` of TaiGerPortalEmbeddedLambdaService).

The TypeScript source is shallowly embedded: JavaScript strings are Lean
`String`s, `undefined`/`null`-able values are `Option`s, thrown errors are an
explicit `PipelineError` sum carried in `Except`, and the external
collaborators (PostgreSQL, the OpenAI embeddings and chat endpoints) are
modelled as explicit inputs (`Env`) describing the outcome of each call the
handler makes.  JavaScript library primitives used by the source
(`String.prototype.trim`, `parseInt`, `JSON.parse` results, property access)
are modelled by small executable definitions (`jsTrim`, `jsParseInt`,
`JsonVal`, `jsGet`).
-/

namespace SimilarStudents

/-! ## JavaScript string primitives -/

/-- Character-list core of `String.prototype.trim`: drop whitespace from both
ends.  (JS trims a Unicode whitespace set; we use `Char.isWhitespace`.) -/
def trimList (cs : List Char) : List Char :=
  ((cs.dropWhile Char.isWhitespace).reverse.dropWhile Char.isWhitespace).reverse

/-- Model of `String.prototype.trim`. -/
def jsTrim (s : String) : String :=
  String.mk (trimList s.data)

/-- Value of a list of decimal digit characters. -/
def digitsToNat (ds : List Char) : Nat :=
  ds.foldl (fun acc c => acc * 10 + (c.toNat - '0'.toNat)) 0

/-- Model of `parseInt(s, 10)`: skip leading whitespace, optional sign, read
leading decimal digits, ignore the rest; `none` models `NaN`. -/
def jsParseInt (s : String) : Option Int :=
  let cs := s.data.dropWhile Char.isWhitespace
  let signRest : Int × List Char :=
    match cs with
    | '-' :: t => (-1, t)
    | '+' :: t => (1, t)
    | _ => (1, cs)
  let ds := signRest.2.takeWhile Char.isDigit
  if ds.isEmpty then none
  else some (signRest.1 * (digitsToNat ds : Int))

/-! ## Data model (`LeadData`, `SimilarStudent`, `MatchItem`) -/

/-- `interface LeadData`: the row fetched from the `leads` table.  The nine
semantic fields are declared `string?` in the source; absent fields are
`none`. -/
structure LeadData where
  id : String := ""
  bachelor_school : Option String := none
  bachelor_program_name : Option String := none
  bachelor_gpa : Option String := none
  master_school : Option String := none
  master_program_name : Option String := none
  master_gpa : Option String := none
  intended_program_level : Option String := none
  intended_programs : Option String := none
  intended_direction : Option String := none

/-- `interface SimilarStudent`: a nearest-neighbour row.  The `distance`
number is modelled as a rational. -/
structure SimilarStudent where
  mongo_id : String
  text : String
  distance : ℚ
deriving DecidableEq

/-- `interface MatchItem`: one entry of the model's `topMatches`. -/
structure MatchItem where
  mongoId : String
  reason : String
deriving DecidableEq

/-- `const defaultNumberOfMatches = 10`. -/
def defaultNumberOfMatches : Int := 10

/-! ## Error taxonomy

`ValidationError`, `DatabaseError`, `OpenAIError` are the custom error
classes; `errorOther` stands for any other thrown `Error` (driver errors,
`TypeError`, ...). -/

inductive PipelineError
  | validationError (msg : String)
  | databaseError (msg : String)
  | openAIError (msg : String)
  | errorOther (msg : String)
deriving DecidableEq

/-- `err.message` of the thrown error. -/
def PipelineError.msg : PipelineError → String
  | .validationError m => m
  | .databaseError m => m
  | .openAIError m => m
  | .errorOther m => m

/-! ## `validateLeadId` -/

/-- `\w` of the sanitizing regex (ASCII word characters). -/
def isWordChar (c : Char) : Bool :=
  c.isAlphanum || c == '_'

/-- `leadId.trim().replace(/[^\w-]/g, "")`. -/
def sanitizeLeadId (s : String) : String :=
  String.mk ((jsTrim s).data.filter (fun c => isWordChar c || c == '-'))

/-- `function validateLeadId(leadId)`: `none` both for a missing/empty raw
value and for a sanitized value outside the 1..100 length bound. -/
def validateLeadId (leadId : Option String) : Option String :=
  match leadId with
  | none => none
  | some s =>
    if s == "" then none
    else
      let sanitized := sanitizeLeadId s
      if sanitized.length < 1 || sanitized.length > 100 then none
      else some sanitized

/-! ## `validateLeadData` -/

/-- One disjunct of the `meaningfulFields.some(...)` test:
`leadData[field] && leadData[field] !== "-" &&
 leadData[field]!.toString().trim().length > 0`
(`jsTrim s != ""` is `.trim().length > 0`; the values are strings, so
`.toString()` is the identity). -/
def meaningfulValue (v : Option String) : Bool :=
  match v with
  | none => false
  | some s => s != "" && s != "-" && jsTrim s != ""

/-- `function validateLeadData(leadData)`: at least one of the nine semantic
fields carries a real value.  (The `typeof leadData !== "object"` guard
cannot fire in the typed model.) -/
def validateLeadData (ld : LeadData) : Bool :=
  meaningfulValue ld.bachelor_school ||
  meaningfulValue ld.bachelor_program_name ||
  meaningfulValue ld.bachelor_gpa ||
  meaningfulValue ld.master_school ||
  meaningfulValue ld.master_program_name ||
  meaningfulValue ld.master_gpa ||
  meaningfulValue ld.intended_program_level ||
  meaningfulValue ld.intended_programs ||
  meaningfulValue ld.intended_direction

/-! ## `prepareTextForEmbedding` -/

/-- `function safeLine(label, value)`:
`value && value !== "-" ? label + ": " + value : ""`. -/
def safeLine (label : String) (value : Option String) : String :=
  match value with
  | none => ""
  | some v => if v != "" && v != "-" then label ++ ": " ++ v else ""

/-- `lines.filter(Boolean).join("\n")` core: join with newlines. -/
def joinStrings : List String → String
  | [] => ""
  | [x] => x
  | x :: y :: xs => x ++ "\n" ++ joinStrings (y :: xs)

/-- `function joinLines(...lines)`. -/
def joinLines (lines : List String) : String :=
  joinStrings (lines.filter (fun l => l != ""))

/-- `function prepareTextForEmbedding(leadData)`. -/
def prepareTextForEmbedding (ld : LeadData) : String :=
  joinLines [
    safeLine "Bachelor School" ld.bachelor_school,
    safeLine "Bachelor Program" ld.bachelor_program_name,
    safeLine "Bachelor GPA" ld.bachelor_gpa,
    safeLine "Master School" ld.master_school,
    safeLine "Master Program" ld.master_program_name,
    safeLine "Master GPA" ld.master_gpa,
    safeLine "Intended Program Level" ld.intended_program_level,
    safeLine "Intended Programs" ld.intended_programs,
    safeLine "Intended Direction" ld.intended_direction
  ]

/-- The argument list `prepareTextForEmbedding` passes to `joinLines`. -/
def textLines (ld : LeadData) : List String :=
  [safeLine "Bachelor School" ld.bachelor_school,
   safeLine "Bachelor Program" ld.bachelor_program_name,
   safeLine "Bachelor GPA" ld.bachelor_gpa,
   safeLine "Master School" ld.master_school,
   safeLine "Master Program" ld.master_program_name,
   safeLine "Master GPA" ld.master_gpa,
   safeLine "Intended Program Level" ld.intended_program_level,
   safeLine "Intended Programs" ld.intended_programs,
   safeLine "Intended Direction" ld.intended_direction]

/-- The fixed, ordered list of (label, value) pairs that
`prepareTextForEmbedding` walks; used to state the projection contract. -/
def semanticFields (ld : LeadData) : List (String × Option String) :=
  [("Bachelor School", ld.bachelor_school),
   ("Bachelor Program", ld.bachelor_program_name),
   ("Bachelor GPA", ld.bachelor_gpa),
   ("Master School", ld.master_school),
   ("Master Program", ld.master_program_name),
   ("Master GPA", ld.master_gpa),
   ("Intended Program Level", ld.intended_program_level),
   ("Intended Programs", ld.intended_programs),
   ("Intended Direction", ld.intended_direction)]

/-- Spec-side emission rule (from the spec's words): emit
`"<Label>: <value>"` exactly when the value is present, non-empty, and not
the sentinel `"-"`. -/
def emitted (p : String × Option String) : Option String :=
  match p.2 with
  | none => none
  | some v => if v ≠ "" ∧ v ≠ "-" then some (p.1 ++ ": " ++ v) else none

/-- Spec-side notion of an "unset" attribute: absent or the sentinel. -/
def unsetField (v : Option String) : Prop :=
  v = none ∨ v = some "-"

/-! ## `preparePrompt` -/

/-- Rendering of `distance.toFixed(4)` for the rational model of the
distance score (round to four decimal places, left-pad the fraction). -/
def toFixed4 (q : ℚ) : String :=
  let n : Int := round (q * 10000)
  let ip : Int := n / 10000
  let fp : Nat := (n % 10000).natAbs
  let fpStr := toString fp
  toString ip ++ "." ++ String.mk (List.replicate (4 - fpStr.length) '0') ++ fpStr

/-- One line of the candidate enumeration inside the prompt. -/
def studentLine (s : SimilarStudent) : String :=
  "ID: " ++ s.mongo_id ++ " | distance: " ++ toFixed4 s.distance ++ " | " ++ s.text ++ "\n"

/-- Leading part of the prompt, up to the candidate list. -/
def promptHeader (inputText : String) : String :=
  "You are an AI assistant matching student profiles.\n\nNew student profile:\n" ++
  inputText ++ "\n\nCandidate students (use only these IDs):\n"

/-- Trailing part of the prompt: task instructions, output schema and the
format example (literal braces written as escapes). -/
def promptTail (numberMatches : Int) : String :=
  "\nTask:\n- Select up to " ++ toString numberMatches ++ " strong matches.\n" ++
  "- If at least " ++ toString numberMatches ++ " strong matches exist, you must return exactly " ++
  toString numberMatches ++ ".\n" ++
  "- Only use IDs from the provided list. Do not invent or alter IDs.\n" ++
  "- Prioritize (in order): same/related degree or program; similar GPA; overlap in subject interests or target universities.\n" ++
  "- Be pragmatic: if several are reasonably strong, include them—do not be overly strict.\n" ++
  "- If fewer than " ++ toString numberMatches ++ " strong matches exist, return all strong matches (possibly zero).\n" ++
  "- For each match, provide a concise reason in Traditional Chinese and English, combined into ONE string and separated by \" | \".\n" ++
  "    Format exactly: \"繁中: <reason in Traditional Chinese> | EN: <reason in English>\".\n" ++
  "    Keep each language concise (e.g., EN ≤ 12 words; 繁中 ≤ 30 characters).\n" ++
  "- Output strict JSON only. No markdown, no comments.\n\n" ++
  "Output JSON schema:\n\x7b\n  \"topMatches\": [\n" ++
  "        \x7b \"mongoId\": \"<one of the provided IDs>\", \"reason\": \"<短理由> | <short reason>\" \x7d\n" ++
  "  ]\n\x7d\n\n" ++
  "Example (10 items shown purely as format guidance):\n\x7b\n  \"topMatches\": [\n" ++
  "        \x7b \"mongoId\": \"id_1\", \"reason\": \"同系所與相近GPA，目標學校重疊 | Same CS program, similar GPA, shared target schools\" \x7d,\n" ++
  "        \x7b \"mongoId\": \"id_2\", \"reason\": \"繁中: 機械領域相近，GPA接近，聚焦機器人 | Mechanical Eng, close GPA, robotics focus\" \x7d,\n" ++
  "        \x7b \"mongoId\": \"id_3\", \"reason\": \"數據科學碩士，課程與目標相符 | Data Science master, similar coursework and goals\" \x7d,\n" ++
  "        \x7b \"mongoId\": \"id_4\", \"reason\": \"電機方向相符，GPA區間一致 | EE program overlap, matching GPA range\" \x7d,\n" ++
  "        \x7b \"mongoId\": \"id_5\", \"reason\": \"商業分析興趣相同，GPA相近 | Business analytics interest, near-identical GPA\" \x7d,\n" ++
  "        \x7b \"mongoId\": \"id_6\", \"reason\": \"同校相近科系，GPA對齊 | Same university, adjacent program, GPA aligned\" \x7d,\n" ++
  "        \x7b \"mongoId\": \"id_7\", \"reason\": \"數學密集課程與目標相似 | Similar math-heavy curriculum and targets\" \x7d,\n" ++
  "        \x7b \"mongoId\": \"id_8\", \"reason\": \"皆為資工且聚焦AI，GPA相近 | Both CS with AI focus, GPA within 0.1\" \x7d,\n" ++
  "        \x7b \"mongoId\": \"id_9\", \"reason\": \"同學位層級與專業方向，GPA接近 | Same degree level and specialization, close GPA\" \x7d,\n" ++
  "        \x7b \"mongoId\": \"id_10\", \"reason\": \"目標學校與申請方向重疊 | Overlap in target schools and program direction\" \x7d\n" ++
  "  ]\n\x7d"

/-- `function preparePrompt(inputText, similarStudents, numberMatches)`. -/
def preparePrompt (inputText : String) (similarStudents : List SimilarStudent)
    (numberMatches : Int) : String :=
  promptHeader inputText ++ String.join (similarStudents.map studentLine) ++
  promptTail numberMatches

/-! ## JSON values and property access

`JSON.parse` output is modelled by `JsonVal`; property access `v.k` by
`jsGet` (`.threw` models the `TypeError` raised on `null`). -/

inductive JsonVal
  | null
  | bool (b : Bool)
  | num (n : Int)
  | str (s : String)
  | arr (xs : List JsonVal)
  | obj (fields : List (String × JsonVal))

/-- Outcome of a JavaScript property access. -/
inductive JsAccess
  | threw
  | val (v : Option JsonVal)

/-- `v[k]`: `TypeError` on `null`, the field on objects (keys assumed
unique), `undefined` otherwise. -/
def jsGet (v : JsonVal) (k : String) : JsAccess :=
  match v with
  | .null => .threw
  | .obj fields => .val ((fields.find? (fun kv => kv.1 == k)).map (fun kv => kv.2))
  | _ => .val none

/-! ## Chat completion response and `getAIEvaluation` -/

/-- The `choices[0].message.content` of a chat response, as seen after
`JSON.parse`: falsy content, content that is not valid JSON, or the parsed
JSON value. -/
inductive ChatContent
  | empty
  | unparseable
  | json (v : JsonVal)

/-- Outcome of the `openai.chat.completions.create` call. -/
inductive ChatResponse
  | threw
  | invalid
  | message (c : ChatContent)

/-- Validation of one `topMatches` element (the body of the `for` loop):
`mongoId` and `reason` must be truthy strings.  A `null` element raises a
`TypeError`, which the surrounding `catch` wraps as
`OpenAIError("Failed to get AI evaluation")`. -/
def validateMatchItem (e : JsonVal) : Except PipelineError MatchItem :=
  match jsGet e "mongoId" with
  | .threw => .error (.openAIError "Failed to get AI evaluation")
  | .val m =>
    match m with
    | some (.str s) =>
      if s == "" then .error (.openAIError "Match item missing valid mongoId property")
      else
        match jsGet e "reason" with
        | .threw => .error (.openAIError "Failed to get AI evaluation")
        | .val r =>
          match r with
          | some (.str t) =>
            if t == "" then .error (.openAIError "Match item missing valid reason property")
            else .ok { mongoId := s, reason := t }
          | _ => .error (.openAIError "Match item missing valid reason property")
    | _ => .error (.openAIError "Match item missing valid mongoId property")

/-- The validation loop over `parsed.topMatches`. -/
def validateItems : List JsonVal → Except PipelineError (List MatchItem)
  | [] => .ok []
  | e :: es =>
    match validateMatchItem e with
    | .error err => .error err
    | .ok it =>
      match validateItems es with
      | .error err => .error err
      | .ok its => .ok (it :: its)

/-- `parsed.topMatches` handling: the truthiness + `Array.isArray` check,
then the per-item validation.  Only `JsonVal.arr` is a truthy array. -/
def parseEvaluationContent (v : JsonVal) : Except PipelineError (List MatchItem) :=
  match jsGet v "topMatches" with
  | .threw => .error (.openAIError "Failed to get AI evaluation")
  | .val tm =>
    match tm with
    | some (.arr xs) => validateItems xs
    | _ => .error (.openAIError "AI response does not contain valid topMatches array")

/-- `async function getAIEvaluation(prompt)`, with the chat call's outcome an
explicit input; returns the validated `topMatches`. -/
def getAIEvaluation (prompt : String) (response : ChatResponse) :
    Except PipelineError (List MatchItem) :=
  if prompt == "" || jsTrim prompt == "" then
    .error (.validationError "Prompt for AI evaluation cannot be empty")
  else
    match response with
    | .threw => .error (.openAIError "Failed to get AI evaluation")
    | .invalid => .error (.openAIError "Invalid response from OpenAI chat API")
    | .message .empty => .error (.openAIError "Empty response content from OpenAI")
    | .message .unparseable => .error (.openAIError "Failed to parse AI response as JSON")
    | .message (.json v) => parseEvaluationContent v

/-- The element shape accepted by the validation loop. -/
def goodItem (e : JsonVal) : Prop :=
  (∃ s, jsGet e "mongoId" = .val (some (.str s)) ∧ s ≠ "") ∧
  (∃ r, jsGet e "reason" = .val (some (.str r)) ∧ r ≠ "")

/-- The `MatchItem` a valid element parses to. -/
def extractItem (e : JsonVal) : MatchItem :=
  { mongoId := match jsGet e "mongoId" with | .val (some (.str s)) => s | _ => ""
    reason := match jsGet e "reason" with | .val (some (.str s)) => s | _ => "" }

/-! ## Repository operations -/

/-- `async function getLeadData(client, leadId)`: the query outcome is an
explicit input (`.error` models a driver failure). -/
def getLeadData (leadId : String) (rows : Except String (List LeadData)) :
    Except PipelineError LeadData :=
  match rows with
  | .error _ => .error (.databaseError "Failed to retrieve lead data")
  | .ok [] => .error (.validationError ("Lead with ID " ++ leadId ++ " not found"))
  | .ok (r :: _) => .ok r

/-- Outcome of the `openai.embeddings.create` call. -/
inductive EmbedResult
  | threw
  | invalid
  | ok (v : List ℚ)

/-- `async function generateEmbedding(text)`.  A non-`ValidationError`
failure inside the `try` (including the `OpenAIError` for a malformed
response) is re-wrapped by the `catch` as
`OpenAIError("Failed to generate embedding")`. -/
def generateEmbedding (text : String) (resp : EmbedResult) :
    Except PipelineError (List ℚ) :=
  if text == "" || jsTrim text == "" then
    .error (.validationError "Text for embedding cannot be empty")
  else
    match resp with
    | .threw => .error (.openAIError "Failed to generate embedding")
    | .invalid => .error (.openAIError "Failed to generate embedding")
    | .ok v => .ok v

/-- `async function findSimilarStudents(client, embedding)`. -/
def findSimilarStudents (embedding : List ℚ)
    (rows : Except String (List SimilarStudent)) :
    Except PipelineError (List SimilarStudent) :=
  if embedding.isEmpty then
    .error (.validationError "Invalid embedding vector provided")
  else
    match rows with
    | .error _ => .error (.databaseError "Failed to find similar students")
    | .ok rs => .ok rs

/-! ## `insertMatchedStudents` over an explicit table state

The `lead_similar_users` table is a list of rows; the multi-row
`INSERT ... ON CONFLICT DO NOTHING` (unique on `(lead_id, mongo_id)`) inserts
rows one by one, skipping conflicts — including conflicts between rows of the
same statement. -/

structure MatchRow where
  lead_id : String
  mongo_id : String
  reason : String
deriving DecidableEq

/-- The multi-row conflict-ignoring insert. -/
def insertRows (leadId : String) : List MatchRow → List MatchItem → List MatchRow
  | t, [] => t
  | t, m :: ms =>
    insertRows leadId
      (if t.any (fun r => r.lead_id == leadId && r.mongo_id == m.mongoId) then t
       else t ++ [{ lead_id := leadId, mongo_id := m.mongoId, reason := m.reason }])
      ms

/-- `async function insertMatchedStudents(client, leadId, topMatches)`:
no-op on an empty list; otherwise delete-then-insert.  `deleteOk = false`
models the logged-and-ignored failure of the preliminary `DELETE`. -/
def insertMatchedStudents (deleteOk : Bool) (table : List MatchRow)
    (leadId : String) (topMatches : List MatchItem) : List MatchRow :=
  if topMatches.isEmpty then table
  else
    let afterDelete :=
      if deleteOk then table.filter (fun r => r.lead_id != leadId) else table
    insertRows leadId afterDelete topMatches

/-- The rows stored for one record identifier. -/
def rowsFor (table : List MatchRow) (leadId : String) : List MatchRow :=
  table.filter (fun r => r.lead_id == leadId)

/-- Pure shadow of `insertRows` on identifiers only: append each identifier
unless already present. -/
def insertIds : List String → List String → List String
  | acc, [] => acc
  | acc, x :: xs => insertIds (if x ∈ acc then acc else acc ++ [x]) xs

/-! ## The Lambda handler

The handler is a pure function of the incoming event, an `Env` describing
the outcome of every external call it may make, and the elapsed time
`procTime` reported by the request timer.  Besides the response it returns
the trace of external operations performed and the final table state. -/

/-- `event.queryStringParameters`. -/
structure Query where
  leadId : Option String := none
  limit : Option String := none

/-- The APIGateway event (`none` models a `null` event). -/
structure Event where
  queryStringParameters : Option Query := none

/-- Outcomes of the external calls, plus the current
`lead_similar_users` table. -/
structure Env where
  connect : Except String Unit
  leadRows : Except String (List LeadData)
  embed : EmbedResult
  similarRows : Except String (List SimilarStudent)
  chat : ChatResponse
  deleteOk : Bool
  insertFails : Bool
  table : List MatchRow

/-- External operations the handler can perform, in order. -/
inductive Effect
  | connect
  | queryLead (leadId : String)
  | embedCall (text : String)
  | querySimilar
  | chatCall (prompt : String)
  | dbDelete (leadId : String)
  | dbInsert (leadId : String)
  | closeConn
deriving DecidableEq

/-- JSON body of a response: each optional field is serialized exactly when
set (mirrors the object literals passed to `JSON.stringify`). -/
structure RespBody where
  error : Option String := none
  details : Option String := none
  leadId : Option String := none
  message : Option String := none
  inputProfile : Option String := none
  matchList : Option (List MatchItem) := none  -- the `matches` key
  processingTime : Option Nat := none
deriving DecidableEq

/-- `APIGatewayProxyResult` (the constant JSON content-type header is
omitted). -/
structure ApiResult where
  statusCode : Nat
  body : RespBody
deriving DecidableEq

/-- Result of the handler's `try` block: response or thrown error, the trace
so far, the table state, and whether `client` was assigned (the `finally`
closes the connection exactly when it was). -/
structure TryOut where
  result : Except PipelineError ApiResult
  trace : List Effect
  table : List MatchRow
  clientAssigned : Bool

/-- The `(() => ...)()` computing `requestedLimit` from `?limit`. -/
def requestedLimit (rawLimit : Option String) : Int :=
  match rawLimit with
  | none => defaultNumberOfMatches
  | some s =>
    match jsParseInt s with
    | none => defaultNumberOfMatches
    | some n => min (max n 1) defaultNumberOfMatches

/-- The handler's `try` block (logging and timing calls have no observable
effect and are omitted). -/
def runTry (event : Option Event) (env : Env) (procTime : Nat) : TryOut :=
  match event with
  | none =>
    { result := .error (.validationError "Event object is required"),
      trace := [], table := env.table, clientAssigned := false }
  | some ev =>
    match validateLeadId (ev.queryStringParameters.bind (fun q => q.leadId)) with
    | none =>
      { result := .ok
          { statusCode := 400,
            body :=
              { error := some "Invalid or missing leadId parameter",
                details := some "leadId must be a non-empty string with valid characters" } },
        trace := [], table := env.table, clientAssigned := false }
    | some leadId =>
      match env.connect with
      | .error msg =>
        { result := .error (.errorOther msg), trace := [Effect.connect],
          table := env.table, clientAssigned := true }
      | .ok _ =>
        match getLeadData leadId env.leadRows with
        | .error e =>
          { result := .error e, trace := [Effect.connect, Effect.queryLead leadId],
            table := env.table, clientAssigned := true }
        | .ok leadData =>
          if validateLeadData leadData then
            let inputText := prepareTextForEmbedding leadData
            if jsTrim inputText == "" then
              { result := .ok
                  { statusCode := 200,
                    body :=
                      { leadId := some leadId,
                        message := some "No text could be generated from lead data",
                        matchList := some [], processingTime := some procTime } },
                trace := [Effect.connect, Effect.queryLead leadId],
                table := env.table, clientAssigned := true }
            else
              match generateEmbedding inputText env.embed with
              | .error e =>
                { result := .error e,
                  trace := [Effect.connect, Effect.queryLead leadId, Effect.embedCall inputText],
                  table := env.table, clientAssigned := true }
              | .ok embedding =>
                match findSimilarStudents embedding env.similarRows with
                | .error e =>
                  { result := .error e,
                    trace := [Effect.connect, Effect.queryLead leadId,
                              Effect.embedCall inputText, Effect.querySimilar],
                    table := env.table, clientAssigned := true }
                | .ok similarStudents =>
                  if similarStudents.isEmpty then
                    { result := .ok
                        { statusCode := 200,
                          body :=
                            { leadId := some leadId, inputProfile := some inputText,
                              message := some "No similar students found",
                              matchList := some [], processingTime := some procTime } },
                      trace := [Effect.connect, Effect.queryLead leadId,
                                Effect.embedCall inputText, Effect.querySimilar],
                      table := env.table, clientAssigned := true }
                  else
                    let lim := requestedLimit (ev.queryStringParameters.bind (fun q => q.limit))
                    let prompt := preparePrompt inputText similarStudents lim
                    let tr := [Effect.connect, Effect.queryLead leadId,
                               Effect.embedCall inputText, Effect.querySimilar,
                               Effect.chatCall prompt]
                    match getAIEvaluation prompt env.chat with
                    | .error e =>
                      { result := .error e, trace := tr,
                        table := env.table, clientAssigned := true }
                    | .ok topMatches =>
                      if topMatches.isEmpty then
                        { result := .ok
                            { statusCode := 200,
                              body :=
                                { leadId := some leadId, matchList := some topMatches,
                                  processingTime := some procTime } },
                          trace := tr, table := env.table, clientAssigned := true }
                      else
                        if env.insertFails then
                          { result := .error (.databaseError "Failed to insert matched students"),
                            trace := tr ++ [Effect.dbDelete leadId, Effect.dbInsert leadId],
                            table :=
                              (if env.deleteOk then
                                env.table.filter (fun r => r.lead_id != leadId)
                              else env.table),
                            clientAssigned := true }
                        else
                          { result := .ok
                              { statusCode := 200,
                                body :=
                                  { leadId := some leadId, matchList := some topMatches,
                                    processingTime := some procTime } },
                            trace := tr ++ [Effect.dbDelete leadId, Effect.dbInsert leadId],
                            table := insertMatchedStudents env.deleteOk env.table leadId topMatches,
                            clientAssigned := true }
          else
            { result := .ok
                { statusCode := 200,
                  body :=
                    { leadId := some leadId,
                      message := some "No meaningful data found for lead",
                      matchList := some [], processingTime := some procTime } },
              trace := [Effect.connect, Effect.queryLead leadId],
              table := env.table, clientAssigned := true }

/-- Everything the handler produces. -/
structure HandlerOut where
  res : ApiResult
  trace : List Effect
  table : List MatchRow

/-- `export const handler`: the `try` block, the `catch` mapping errors to
status codes, and the `finally` closing the connection when `client` was
assigned. -/
def handler (event : Option Event) (env : Env) (procTime : Nat) : HandlerOut :=
  let t := runTry event env procTime
  let res :=
    match t.result with
    | .ok r => r
    | .error e =>
      { statusCode :=
          match e with
          | .validationError _ => 400
          | .databaseError _ => 503
          | .openAIError _ => 502
          | .errorOther _ => 500,
        body :=
          { error := some (match e with
              | .validationError _ => "Validation error"
              | .databaseError _ => "Database error"
              | .openAIError _ => "AI service error"
              | .errorOther _ => "Internal server error"),
            details := some e.msg,
            processingTime := some procTime } }
  { res := res,
    trace := t.trace ++ (if t.clientAssigned then [Effect.closeConn] else []),
    table := t.table }

/-! ## Concrete instances used by counterexamples and witnesses -/

/-- An environment in which no external call succeeds (good enough for paths
that never reach them). -/
def env0 : Env :=
  { connect := .error "conn", leadRows := .error "conn", embed := .threw,
    similarRows := .error "conn", chat := .threw, deleteOk := true,
    insertFails := false, table := [] }

/-- A record whose only set semantic fields are the sentinel `"-"`. -/
def ldSentinel : LeadData :=
  { id := "L1", bachelor_school := some "-", intended_programs := some "-" }

/-- An environment whose record lookup returns `ldSentinel`. -/
def envSentinel : Env :=
  { env0 with connect := .ok (), leadRows := .ok [ldSentinel] }

/-- A record with one meaningful field. -/
def ldMeaningful : LeadData :=
  { id := "L2", bachelor_school := some "NTU" }

/-- A single nearest-neighbour candidate. -/
def stuA : SimilarStudent := { mongo_id := "A", text := "t", distance := 0 }

/-- A chat response naming only the candidate `"A"`. -/
def respA : ChatResponse :=
  .message (.json (.obj [("topMatches",
    .arr [.obj [("mongoId", .str "A"), ("reason", .str "r")]])]))

/-- A chat response naming `"B"`, which is not among the candidates. -/
def respB : ChatResponse :=
  .message (.json (.obj [("topMatches",
    .arr [.obj [("mongoId", .str "B"), ("reason", .str "r")]])]))

/-- An environment where every call up to (and including) the chat succeeds. -/
def envChat : Env :=
  { connect := .ok (), leadRows := .ok [ldMeaningful], embed := .ok [1],
    similarRows := .ok [stuA], chat := respA, deleteOk := true,
    insertFails := false, table := [] }

/-- The query of the concrete limited request. -/
def qLimit : Query := { leadId := some "L2", limit := some "25" }

/-- A stored match row for record `"L"`. -/
def rowM : MatchRow := { lead_id := "L", mongo_id := "M", reason := "r" }

/-- Two new matches with distinct identifiers. -/
def msAB : List MatchItem :=
  [{ mongoId := "A", reason := "x" }, { mongoId := "B", reason := "y" }]

/-! # Theorems -/

/-! ## String helpers -/

theorem append_colon_ne_empty (a v : String) : a ++ ": " ++ v ≠ "" := by
  intro h
  have hd := congrArg String.data h
  rw [String.data_append, String.data_append] at hd
  simp at hd

theorem char_mem_line (a v : String) {c : Char} (hc : c ∈ a.data) :
    c ∈ (a ++ ": " ++ v).data := by
  rw [String.data_append, String.data_append]
  exact List.mem_append_left _ (List.mem_append_left _ hc)

theorem mem_joinStrings_data {c : Char} :
    ∀ {l : List String} {x : String}, x ∈ l → c ∈ x.data →
      c ∈ (joinStrings l).data
  | [], _, hx, _ => by simp at hx
  | [a], x, hx, hc => by
    rw [List.mem_singleton] at hx
    subst hx
    simpa [joinStrings] using hc
  | a :: b :: l', x, hx, hc => by
    rw [show joinStrings (a :: b :: l') = a ++ "\n" ++ joinStrings (b :: l') from rfl,
        String.data_append, String.data_append]
    rcases List.mem_cons.mp hx with h | h
    · subst h
      exact List.mem_append_left _ (List.mem_append_left _ hc)
    · exact List.mem_append_right _ (mem_joinStrings_data h hc)

theorem jsTrim_ne_empty {s : String} {c : Char} (hc : c ∈ s.data)
    (hw : c.isWhitespace = false) : jsTrim s ≠ "" := by
  intro h
  have hdata : trimList s.data = [] := congrArg String.data h
  unfold trimList at hdata
  have h1 := List.reverse_eq_nil_iff.mp hdata
  have h2 := List.dropWhile_eq_nil_iff.mp h1
  have h3 : ∀ x ∈ s.data.dropWhile Char.isWhitespace, x.isWhitespace = true := by
    intro x hx
    exact h2 x (List.mem_reverse.mpr hx)
  have h4 : c.isWhitespace = true := by
    have hsplit := List.takeWhile_append_dropWhile Char.isWhitespace s.data
    rw [← hsplit] at hc
    rcases List.mem_append.mp hc with h | h
    · exact List.mem_takeWhile_imp h
    · exact h3 c h
  rw [hw] at h4
  exact Bool.false_ne_true h4

/-! ## Profile projection (C5) -/

theorem filter_safeLine_eq_filterMap (ps : List (String × Option String)) :
    (ps.map (fun p => safeLine p.1 p.2)).filter (fun l => l != "") =
      ps.filterMap emitted := by
  induction ps with
  | nil => rfl
  | cons p ps ih =>
    rcases p with ⟨label, v⟩
    cases v with
    | none => simpa [safeLine, emitted] using ih
    | some s =>
      by_cases h1 : s = ""
      · subst h1; simpa [safeLine, emitted] using ih
      · by_cases h2 : s = "-"
        · subst h2; simpa [safeLine, emitted] using ih
        · have hne := append_colon_ne_empty label s
          simpa [safeLine, emitted, h1, h2, hne] using ih

/-- C5: `prepareTextForEmbedding` is a pure projection: walking the fixed,
ordered field list, it emits `"<Label>: <value>"` exactly for the fields
whose value is present, non-empty, and not the sentinel `"-"`, and joins the
surviving lines with newlines; every emitted line comes from such a field. -/
theorem prepareText_projection (ld : LeadData) :
    prepareTextForEmbedding ld = joinStrings ((semanticFields ld).filterMap emitted) ∧
    ∀ line ∈ (semanticFields ld).filterMap emitted,
      ∃ p ∈ semanticFields ld, ∃ v, p.2 = some v ∧ v ≠ "" ∧ v ≠ "-" ∧
        line = p.1 ++ ": " ++ v := by
  constructor
  · have h1 : prepareTextForEmbedding ld =
        joinStrings (((semanticFields ld).map (fun p => safeLine p.1 p.2)).filter
          (fun l => l != "")) := rfl
    rw [h1, filter_safeLine_eq_filterMap]
  · intro line hline
    rcases List.mem_filterMap.mp hline with ⟨p, hp, hemit⟩
    rcases p with ⟨label, v⟩
    cases v with
    | none => simp [emitted] at hemit
    | some s =>
      by_cases h1 : s = ""
      · subst h1; simp [emitted] at hemit
      · by_cases h2 : s = "-"
        · subst h2; simp [emitted] at hemit
        · refine ⟨(label, some s), hp, s, rfl, h1, h2, ?_⟩
          simp [emitted, h1, h2] at hemit
          exact hemit.symm

/-! ## Meaningfulness implies non-blank profile text (C10 core) -/

theorem meaningfulValue_elim {v : Option String} (h : meaningfulValue v = true) :
    ∃ s, v = some s ∧ s ≠ "" ∧ s ≠ "-" ∧ jsTrim s ≠ "" := by
  cases v with
  | none => simp [meaningfulValue] at h
  | some s =>
    refine ⟨s, rfl, ?_⟩
    simpa [meaningfulValue, Bool.and_eq_true, bne_iff_ne, and_assoc] using h

theorem safeLine_of_valid {label s : String} (h1 : s ≠ "") (h2 : s ≠ "-") :
    safeLine label (some s) = label ++ ": " ++ s := by
  simp [safeLine, h1, h2]

theorem jsTrim_joinLines_ne {lines : List String} {x : String} (hx : x ∈ lines)
    {c : Char} (hc : c ∈ x.data) (hw : c.isWhitespace = false) (hxne : x ≠ "") :
    jsTrim (joinLines lines) ≠ "" := by
  refine jsTrim_ne_empty (c := c) ?_ hw
  refine mem_joinStrings_data ?_ hc
  exact List.mem_filter.mpr ⟨hx, by simpa [bne_iff_ne] using hxne⟩

theorem trim_ne_of_mem_meaningful (ld : LeadData) (label : String)
    {v : Option String} (hmv : meaningfulValue v = true) {c : Char}
    (hc : c ∈ label.data) (hw : c.isWhitespace = false)
    (hmem : ∀ s, v = some s → s ≠ "" → s ≠ "-" →
      (label ++ ": " ++ s) ∈ textLines ld) :
    jsTrim (prepareTextForEmbedding ld) ≠ "" := by
  rcases meaningfulValue_elim hmv with ⟨s, hf, h1, h2, _⟩
  have heq : prepareTextForEmbedding ld = joinLines (textLines ld) := rfl
  rw [heq]
  exact jsTrim_joinLines_ne (hmem s hf h1 h2) (char_mem_line _ _ hc) hw
    (append_colon_ne_empty _ _)

theorem meaningful_text_trim_ne (ld : LeadData)
    (h : validateLeadData ld = true) :
    jsTrim (prepareTextForEmbedding ld) ≠ "" := by
  simp only [validateLeadData, Bool.or_eq_true] at h
  rcases h with ((((((((h | h) | h) | h) | h) | h) | h) | h) | h)
  · exact trim_ne_of_mem_meaningful ld "Bachelor School" h (c := 'B') (by decide) (by decide)
      (fun s hf h1 h2 => by rw [textLines, hf, safeLine_of_valid h1 h2]; simp)
  · exact trim_ne_of_mem_meaningful ld "Bachelor Program" h (c := 'B') (by decide) (by decide)
      (fun s hf h1 h2 => by rw [textLines, hf, safeLine_of_valid h1 h2]; simp)
  · exact trim_ne_of_mem_meaningful ld "Bachelor GPA" h (c := 'B') (by decide) (by decide)
      (fun s hf h1 h2 => by rw [textLines, hf, safeLine_of_valid h1 h2]; simp)
  · exact trim_ne_of_mem_meaningful ld "Master School" h (c := 'M') (by decide) (by decide)
      (fun s hf h1 h2 => by rw [textLines, hf, safeLine_of_valid h1 h2]; simp)
  · exact trim_ne_of_mem_meaningful ld "Master Program" h (c := 'M') (by decide) (by decide)
      (fun s hf h1 h2 => by rw [textLines, hf, safeLine_of_valid h1 h2]; simp)
  · exact trim_ne_of_mem_meaningful ld "Master GPA" h (c := 'M') (by decide) (by decide)
      (fun s hf h1 h2 => by rw [textLines, hf, safeLine_of_valid h1 h2]; simp)
  · exact trim_ne_of_mem_meaningful ld "Intended Program Level" h (c := 'I') (by decide) (by decide)
      (fun s hf h1 h2 => by rw [textLines, hf, safeLine_of_valid h1 h2]; simp)
  · exact trim_ne_of_mem_meaningful ld "Intended Programs" h (c := 'I') (by decide) (by decide)
      (fun s hf h1 h2 => by rw [textLines, hf, safeLine_of_valid h1 h2]; simp)
  · exact trim_ne_of_mem_meaningful ld "Intended Direction" h (c := 'I') (by decide) (by decide)
      (fun s hf h1 h2 => by rw [textLines, hf, safeLine_of_valid h1 h2]; simp)

/-! ## Handler-level helpers -/

theorem runTry_ok_message (ev : Option Event) (env : Env) (pt : Nat)
    (r : ApiResult) (h : (runTry ev env pt).result = .ok r) :
    r.body.message ≠ some "No text could be generated from lead data" := by
  unfold runTry at h
  repeat' (first | split at h | dsimp only at h)
  all_goals first
    | exact Except.noConfusion h
    | (injection h with h; subst h; simp; done)
    | (injection h with h; subst h
       first
         | (rename_i hval hx1 hx2 htrim
            exact absurd (beq_iff_eq.mp htrim) (meaningful_text_trim_ne _ hval))
         | (rename_i hval hx1 htrim
            exact absurd (beq_iff_eq.mp htrim) (meaningful_text_trim_ne _ hval)))


/-- C10: whenever the meaningfulness check (`validateLeadData`) accepts a
record, the projected profile text is non-blank after trimming; consequently
no handler run ever produces the "No text could be generated from lead data"
short-circuit response. -/
theorem meaningfulness_no_text_unreachable :
    (∀ ld : LeadData, validateLeadData ld = true →
      jsTrim (prepareTextForEmbedding ld) ≠ "") ∧
    (∀ (ev : Option Event) (env : Env) (pt : Nat),
      (handler ev env pt).res.body.message ≠
        some "No text could be generated from lead data") := by
  refine ⟨meaningful_text_trim_ne, ?_⟩
  intro ev env pt
  show (match (runTry ev env pt).result with
    | .ok r => r
    | .error e => _).body.message ≠ _
  cases hres : (runTry ev env pt).result with
  | ok r => exact runTry_ok_message ev env pt r hres
  | error e => simp

/-- Witness for C10 at a concrete record and run. -/
theorem meaningfulness_no_text_unreachable_witness :
    jsTrim (prepareTextForEmbedding ldMeaningful) ≠ "" ∧
    (handler none env0 0).res.body.message ≠
      some "No text could be generated from lead data" :=
  ⟨meaningfulness_no_text_unreachable.1 ldMeaningful (by decide),
   meaningfulness_no_text_unreachable.2 none env0 0⟩


/-- The early 400 response for an invalid `leadId`. -/
theorem runTry_invalid (ev : Event) (env : Env) (pt : Nat)
    (h : validateLeadId (ev.queryStringParameters.bind (fun q => q.leadId)) = none) :
    runTry (some ev) env pt =
      { result := .ok
          { statusCode := 400,
            body :=
              { error := some "Invalid or missing leadId parameter",
                details := some "leadId must be a non-empty string with valid characters" } },
        trace := [], table := env.table, clientAssigned := false } := by
  unfold runTry
  dsimp only
  rw [h]

/-- C4: an absent, empty, or out-of-bounds (e.g. sanitized length 101) record
identifier makes the handler return 400 immediately, with an empty external
trace: no connection is opened and no embedding or model call is made. -/
theorem validation_boundary :
    (∀ (ev : Event) (env : Env) (pt : Nat),
      validateLeadId (ev.queryStringParameters.bind (fun q => q.leadId)) = none →
        (handler (some ev) env pt).res.statusCode = 400 ∧
        (handler (some ev) env pt).trace = []) ∧
    validateLeadId none = none ∧
    validateLeadId (some "") = none ∧
    (∀ s : String, (sanitizeLeadId s).length = 101 → validateLeadId (some s) = none) := by
  refine ⟨?_, rfl, rfl, ?_⟩
  · intro ev env pt h
    have hrt := runTry_invalid ev env pt h
    constructor
    · show (match (runTry (some ev) env pt).result with
        | .ok r => r
        | .error e => _).statusCode = 400
      rw [hrt]
    · show (runTry (some ev) env pt).trace ++ _ = []
      rw [hrt]
      rfl
  · intro s h
    by_cases hs : (s == "") = true
    · simp [validateLeadId, hs]
    · simp [validateLeadId, hs, h]

/-- Witness for C4: the empty identifier and a 101-character identifier. -/
theorem validation_boundary_witness :
    (handler (some { queryStringParameters := some { leadId := some "" } }) env0 7).res.statusCode = 400 ∧
    (handler (some { queryStringParameters := some { leadId := some "" } }) env0 7).trace = [] ∧
    validateLeadId (some (String.mk (List.replicate 101 'a'))) = none :=
  ⟨(validation_boundary.1 { queryStringParameters := some { leadId := some "" } } env0 7 rfl).1,
   (validation_boundary.1 { queryStringParameters := some { leadId := some "" } } env0 7 rfl).2,
   validation_boundary.2.2.2 _ (by decide)⟩


/-- C6 counterexample: the 400 response returned for an invalid record
identifier has no `processingTime` field in its body, so not every response
includes the elapsed time. -/
theorem processing_time_counterexample :
    (handler (some { queryStringParameters := some { leadId := some "!!" } }) env0 7).res.statusCode = 400 ∧
    (handler (some { queryStringParameters := some { leadId := some "!!" } }) env0 7).res.body.processingTime = none := by
  constructor
  · rfl
  · rfl

theorem runTry_ok_time (ev : Option Event) (env : Env) (pt : Nat)
    (r : ApiResult) (h : (runTry ev env pt).result = .ok r) :
    r.body.processingTime = some pt ∨
    (r.statusCode = 400 ∧ r.body.error = some "Invalid or missing leadId parameter" ∧
     r.body.processingTime = none) := by
  unfold runTry at h
  repeat' (first | split at h | dsimp only at h)
  all_goals first
    | exact Except.noConfusion h
    | (injection h with h; subst h; simp)

/-- C6 amended: every handler response carries the elapsed processing time in
its body except the early 400 returned for an invalid record identifier,
whose body has only `error` and `details`. -/
theorem processing_time_amended (ev : Option Event) (env : Env) (pt : Nat) :
    (handler ev env pt).res.body.processingTime = some pt ∨
    ((handler ev env pt).res.statusCode = 400 ∧
     (handler ev env pt).res.body.error = some "Invalid or missing leadId parameter" ∧
     (handler ev env pt).res.body.processingTime = none) := by
  cases hres : (runTry ev env pt).result with
  | ok r =>
    have hr : (handler ev env pt).res = r := by
      show (match (runTry ev env pt).result with
        | .ok r => r
        | .error e => _) = r
      rw [hres]
    rw [hr]
    exact runTry_ok_time ev env pt r hres
  | error e =>
    refine Or.inl ?_
    show (match (runTry ev env pt).result with
      | .ok r => r
      | .error e => _).body.processingTime = some pt
    rw [hres]


/-! ## Reaching the re-ranking step -/

theorem ne_empty_of_jsTrim_ne {s : String} (h : jsTrim s ≠ "") : s ≠ "" := by
  intro hs
  exact h (by rw [hs]; rfl)

theorem char_Y_mem_preparePrompt (text : String) (ss : List SimilarStudent)
    (n : Int) : 'Y' ∈ (preparePrompt text ss n).data := by
  unfold preparePrompt promptHeader
  simp only [String.data_append, List.mem_append]
  refine Or.inl (Or.inl (Or.inl (Or.inl ?_)))
  decide

theorem preparePrompt_cond_false (text : String) (ss : List SimilarStudent)
    (n : Int) :
    (preparePrompt text ss n == "" || jsTrim (preparePrompt text ss n) == "") = false := by
  have hY := char_Y_mem_preparePrompt text ss n
  have h2 : jsTrim (preparePrompt text ss n) ≠ "" := jsTrim_ne_empty hY (by decide)
  have h1 : preparePrompt text ss n ≠ "" := ne_empty_of_jsTrim_ne h2
  simp [h1, h2]

/-- With a prompt built by `preparePrompt`, the non-empty-prompt precondition
always passes and `getAIEvaluation` is decided by the chat response alone. -/
theorem getAIEvaluation_prompt (text : String) (ss : List SimilarStudent)
    (n : Int) (resp : ChatResponse) :
    getAIEvaluation (preparePrompt text ss n) resp =
      match resp with
      | .threw => .error (.openAIError "Failed to get AI evaluation")
      | .invalid => .error (.openAIError "Invalid response from OpenAI chat API")
      | .message .empty => .error (.openAIError "Empty response content from OpenAI")
      | .message .unparseable => .error (.openAIError "Failed to parse AI response as JSON")
      | .message (.json v) => parseEvaluationContent v := by
  unfold getAIEvaluation
  rw [preparePrompt_cond_false]
  rfl

theorem runTry_chat_stage (q : Query) (env : Env) (pt : Nat) (leadId : String)
    (ld : LeadData) (v : List ℚ) (ss : List SimilarStudent)
    (hid : validateLeadId q.leadId = some leadId)
    (hconn : env.connect = .ok ())
    (hrows : env.leadRows = .ok [ld])
    (hval : validateLeadData ld = true)
    (hemb : env.embed = .ok v) (hv : v ≠ [])
    (hsim : env.similarRows = .ok ss) (hss : ss ≠ []) :
    runTry (some { queryStringParameters := some q }) env pt =
      (let inputText := prepareTextForEmbedding ld
       let prompt := preparePrompt inputText ss (requestedLimit q.limit)
       let tr := [Effect.connect, Effect.queryLead leadId, Effect.embedCall inputText,
                  Effect.querySimilar, Effect.chatCall prompt]
       match getAIEvaluation prompt env.chat with
       | .error e =>
         { result := .error e, trace := tr, table := env.table, clientAssigned := true }
       | .ok topMatches =>
         if topMatches.isEmpty then
           { result := .ok
               { statusCode := 200,
                 body :=
                   { leadId := some leadId, matchList := some topMatches,
                     processingTime := some pt } },
             trace := tr, table := env.table, clientAssigned := true }
         else if env.insertFails then
           { result := .error (.databaseError "Failed to insert matched students"),
             trace := tr ++ [Effect.dbDelete leadId, Effect.dbInsert leadId],
             table :=
               (if env.deleteOk then
                 env.table.filter (fun r => r.lead_id != leadId)
               else env.table),
             clientAssigned := true }
         else
           { result := .ok
               { statusCode := 200,
                 body :=
                   { leadId := some leadId, matchList := some topMatches,
                     processingTime := some pt } },
             trace := tr ++ [Effect.dbDelete leadId, Effect.dbInsert leadId],
             table := insertMatchedStudents env.deleteOk env.table leadId topMatches,
             clientAssigned := true }) := by
  have htrim : (jsTrim (prepareTextForEmbedding ld) == "") = false := by
    simpa using meaningful_text_trim_ne ld hval
  have htext : (prepareTextForEmbedding ld == "") = false := by
    simpa using ne_empty_of_jsTrim_ne (meaningful_text_trim_ne ld hval)
  have hvempty : v.isEmpty = false := by simpa using hv
  have hssempty : ss.isEmpty = false := by simpa using hss
  unfold runTry
  dsimp only
  rw [show ((some q).bind fun qq => qq.leadId) = q.leadId from rfl, hid, hconn, hrows]
  dsimp only [getLeadData]
  simp only [hval, if_true, htrim, Bool.false_eq_true, if_false]
  dsimp only [generateEmbedding]
  rw [hemb]
  simp only [htext, htrim, Bool.or_self, Bool.false_eq_true, if_false]
  dsimp only [findSimilarStudents]
  rw [hsim]
  simp only [hvempty, Bool.false_eq_true, if_false, hssempty]
  rfl


/-- C8: the optional `?limit` is parsed with `parseInt` and clamped to
`[1, 10]` with default `10`; the clamped value is the limit baked into the
re-ranking prompt whenever the pipeline reaches the chat call. -/
theorem limit_clamping :
    requestedLimit none = 10 ∧
    (∀ s : String, jsParseInt s = none → requestedLimit (some s) = 10) ∧
    (∀ (s : String) (n : Int), jsParseInt s = some n → n < 1 →
      requestedLimit (some s) = 1) ∧
    (∀ (s : String) (n : Int), jsParseInt s = some n → 10 < n →
      requestedLimit (some s) = 10) ∧
    (∀ (s : String) (n : Int), jsParseInt s = some n → 1 ≤ n → n ≤ 10 →
      requestedLimit (some s) = n) ∧
    (∀ (q : Query) (env : Env) (pt : Nat) (leadId : String) (ld : LeadData)
       (v : List ℚ) (ss : List SimilarStudent),
      validateLeadId q.leadId = some leadId →
      env.connect = .ok () →
      env.leadRows = .ok [ld] →
      validateLeadData ld = true →
      env.embed = .ok v → v ≠ [] →
      env.similarRows = .ok ss → ss ≠ [] →
      Effect.chatCall (preparePrompt (prepareTextForEmbedding ld) ss
          (requestedLimit q.limit))
        ∈ (handler (some { queryStringParameters := some q }) env pt).trace) := by
  refine ⟨rfl, ?_, ?_, ?_, ?_, ?_⟩
  · intro s h; simp [requestedLimit, h, defaultNumberOfMatches]
  · intro s n h hn
    simp only [requestedLimit, h, defaultNumberOfMatches]
    omega
  · intro s n h hn
    simp only [requestedLimit, h, defaultNumberOfMatches]
    omega
  · intro s n h h1 h10
    simp only [requestedLimit, h, defaultNumberOfMatches]
    omega
  · intro q env pt leadId ld v ss hid hconn hrows hval hemb hv hsim hss
    have hst := runTry_chat_stage q env pt leadId ld v ss hid hconn hrows hval
      hemb hv hsim hss
    show Effect.chatCall _ ∈
      (runTry (some { queryStringParameters := some q }) env pt).trace ++ _
    rw [hst]
    dsimp only
    cases getAIEvaluation (preparePrompt (prepareTextForEmbedding ld) ss
        (requestedLimit q.limit)) env.chat with
    | error e => simp
    | ok tm =>
      by_cases htm : tm.isEmpty <;> by_cases hins : env.insertFails = true <;>
        simp [htm, hins]

/-- Witness for C8 at concrete limits and a concrete run reaching the chat. -/
theorem limit_clamping_witness :
    requestedLimit (some "abc") = 10 ∧
    requestedLimit (some "0") = 1 ∧
    requestedLimit (some "25") = 10 ∧
    requestedLimit (some "7") = 7 ∧
    Effect.chatCall (preparePrompt (prepareTextForEmbedding ldMeaningful) [stuA]
        (requestedLimit qLimit.limit))
      ∈ (handler (some { queryStringParameters := some qLimit }) envChat 3).trace :=
  ⟨limit_clamping.2.1 "abc" rfl,
   limit_clamping.2.2.1 "0" 0 rfl (by decide),
   limit_clamping.2.2.2.1 "25" 25 rfl (by decide),
   limit_clamping.2.2.2.2.1 "7" 7 rfl (by decide) (by decide),
   limit_clamping.2.2.2.2.2 qLimit envChat 3 "L2" ldMeaningful [1] [stuA] rfl rfl
     rfl (by decide) rfl (by decide) rfl (by decide)⟩


/-- The full-pipeline success result. -/
theorem runTry_success_result (q : Query) (env : Env) (pt : Nat)
    (leadId : String) (ld : LeadData) (v : List ℚ) (ss : List SimilarStudent)
    (ms : List MatchItem)
    (hid : validateLeadId q.leadId = some leadId)
    (hconn : env.connect = .ok ())
    (hrows : env.leadRows = .ok [ld])
    (hval : validateLeadData ld = true)
    (hemb : env.embed = .ok v) (hv : v ≠ [])
    (hsim : env.similarRows = .ok ss) (hss : ss ≠ [])
    (hchat : getAIEvaluation (preparePrompt (prepareTextForEmbedding ld) ss
      (requestedLimit q.limit)) env.chat = .ok ms)
    (hins : env.insertFails = false) :
    (runTry (some { queryStringParameters := some q }) env pt).result =
      .ok { statusCode := 200,
            body :=
              { leadId := some leadId, matchList := some ms,
                processingTime := some pt } } := by
  rw [runTry_chat_stage q env pt leadId ld v ss hid hconn hrows hval hemb hv
    hsim hss]
  dsimp only
  rw [hchat]
  dsimp only
  by_cases hms : ms.isEmpty
  · simp [hms]
  · simp [hms, hins]

/-- C7: thrown `ValidationError`s (including the not-found record) map to
status 400, `DatabaseError`s to 503, `OpenAIError`s to 502, anything else to
500; a full-pipeline success returns 200 with the record id and the computed
matches. -/
theorem error_status_mapping :
    (∀ (ev : Option Event) (env : Env) (pt : Nat) (e : PipelineError),
      (runTry ev env pt).result = .error e →
        (handler ev env pt).res.statusCode =
          (match e with
           | .validationError _ => 400
           | .databaseError _ => 503
           | .openAIError _ => 502
           | .errorOther _ => 500)) ∧
    (∀ leadId : String, getLeadData leadId (.ok []) =
      .error (.validationError ("Lead with ID " ++ leadId ++ " not found"))) ∧
    (∀ (q : Query) (env : Env) (pt : Nat) (leadId : String) (ld : LeadData)
       (v : List ℚ) (ss : List SimilarStudent) (ms : List MatchItem),
      validateLeadId q.leadId = some leadId →
      env.connect = .ok () →
      env.leadRows = .ok [ld] →
      validateLeadData ld = true →
      env.embed = .ok v → v ≠ [] →
      env.similarRows = .ok ss → ss ≠ [] →
      getAIEvaluation (preparePrompt (prepareTextForEmbedding ld) ss
        (requestedLimit q.limit)) env.chat = .ok ms →
      env.insertFails = false →
      (handler (some { queryStringParameters := some q }) env pt).res =
        { statusCode := 200,
          body :=
            { leadId := some leadId, matchList := some ms,
              processingTime := some pt } }) := by
  refine ⟨?_, fun leadId => rfl, ?_⟩
  · intro ev env pt e h
    show (match (runTry ev env pt).result with
      | .ok r => r
      | .error e => _).statusCode = _
    rw [h]
  · intro q env pt leadId ld v ss ms hid hconn hrows hval hemb hv hsim hss
      hchat hins
    have hres := runTry_success_result q env pt leadId ld v ss ms hid hconn
      hrows hval hemb hv hsim hss hchat hins
    show (match (runTry (some { queryStringParameters := some q }) env pt).result with
      | .ok r => r
      | .error e => _) = _
    rw [hres]

/-- Witness for C7: an event-validation failure mapping to 400, the
not-found record, and a concrete full success. -/
theorem error_status_mapping_witness :
    (handler none env0 0).res.statusCode = 400 ∧
    getLeadData "L9" (.ok []) =
      .error (.validationError ("Lead with ID " ++ "L9" ++ " not found")) ∧
    (handler (some { queryStringParameters := some qLimit }) envChat 3).res =
      { statusCode := 200,
        body :=
          { leadId := some "L2", matchList := some [{ mongoId := "A", reason := "r" }],
            processingTime := some 3 } } :=
  ⟨error_status_mapping.1 none env0 0 (.validationError "Event object is required") rfl,
   error_status_mapping.2.1 "L9",
   error_status_mapping.2.2 qLimit envChat 3 "L2" ldMeaningful [1] [stuA]
     [{ mongoId := "A", reason := "r" }] rfl rfl rfl (by decide) rfl (by decide)
     rfl (by decide) (by rw [getAIEvaluation_prompt]; rfl) rfl⟩


/-! ## Sentinel-only records (C3) -/

theorem safeLine_unset {v : Option String} (h : unsetField v) (label : String) :
    safeLine label v = "" := by
  rcases h with h | h <;> subst h <;> rfl

theorem meaningfulValue_unset {v : Option String} (h : unsetField v) :
    meaningfulValue v = false := by
  rcases h with h | h <;> subst h <;> rfl

theorem runTry_no_meaningful (q : Query) (env : Env) (pt : Nat)
    (leadId : String) (ld : LeadData)
    (hid : validateLeadId q.leadId = some leadId)
    (hconn : env.connect = .ok ())
    (hrows : env.leadRows = .ok [ld])
    (hval : validateLeadData ld = false) :
    runTry (some { queryStringParameters := some q }) env pt =
      { result := .ok
          { statusCode := 200,
            body :=
              { leadId := some leadId,
                message := some "No meaningful data found for lead",
                matchList := some [], processingTime := some pt } },
        trace := [Effect.connect, Effect.queryLead leadId],
        table := env.table, clientAssigned := true } := by
  unfold runTry
  dsimp only
  rw [show ((some q).bind fun qq => qq.leadId) = q.leadId from rfl, hid, hconn,
    hrows]
  dsimp only [getLeadData]
  simp only [hval, Bool.false_eq_true, if_false]

/-- C3 counterexample: for the fetched record
`{bachelor_school: "-", intended_programs: "-"}` the projected profile text is
empty and the handler returns 200 with an empty match list and a processing
time — but with the message "No meaningful data found for lead", not the
"No text could be generated from lead data" message the claim names. -/
theorem sentinel_record_counterexample :
    prepareTextForEmbedding ldSentinel = "" ∧
    (handler (some { queryStringParameters := some { leadId := some "L1" } }) envSentinel 5).res.statusCode = 200 ∧
    (handler (some { queryStringParameters := some { leadId := some "L1" } }) envSentinel 5).res.body.message =
      some "No meaningful data found for lead" ∧
    (handler (some { queryStringParameters := some { leadId := some "L1" } }) envSentinel 5).res.body.message ≠
      some "No text could be generated from lead data" ∧
    (handler (some { queryStringParameters := some { leadId := some "L1" } }) envSentinel 5).res.body.matchList =
      some [] ∧
    (handler (some { queryStringParameters := some { leadId := some "L1" } }) envSentinel 5).res.body.processingTime =
      some 5 := by
  refine ⟨rfl, rfl, rfl, by decide, rfl, rfl⟩

/-- C3 amended: a fetched record whose semantic fields are all absent or the
sentinel `"-"` has empty projected profile text, and the handler
short-circuits at the meaningfulness check — before text projection — to a
200 response with the record id, the message
"No meaningful data found for lead", an empty match list, and the numeric
processing time. -/
theorem sentinel_record_amended (ld : LeadData) (q : Query) (env : Env)
    (pt : Nat) (leadId : String)
    (hall : unsetField ld.bachelor_school ∧ unsetField ld.bachelor_program_name ∧
      unsetField ld.bachelor_gpa ∧ unsetField ld.master_school ∧
      unsetField ld.master_program_name ∧ unsetField ld.master_gpa ∧
      unsetField ld.intended_program_level ∧ unsetField ld.intended_programs ∧
      unsetField ld.intended_direction)
    (hid : validateLeadId q.leadId = some leadId)
    (hconn : env.connect = .ok ())
    (hrows : env.leadRows = .ok [ld]) :
    prepareTextForEmbedding ld = "" ∧
    (handler (some { queryStringParameters := some q }) env pt).res =
      { statusCode := 200,
        body :=
          { leadId := some leadId,
            message := some "No meaningful data found for lead",
            matchList := some [], processingTime := some pt } } := by
  obtain ⟨h1, h2, h3, h4, h5, h6, h7, h8, h9⟩ := hall
  constructor
  · show joinLines [safeLine "Bachelor School" ld.bachelor_school, _, _, _, _, _, _, _, _] = ""
    rw [safeLine_unset h1, safeLine_unset h2, safeLine_unset h3,
      safeLine_unset h4, safeLine_unset h5, safeLine_unset h6,
      safeLine_unset h7, safeLine_unset h8, safeLine_unset h9]
    rfl
  · have hval : validateLeadData ld = false := by
      unfold validateLeadData
      rw [meaningfulValue_unset h1, meaningfulValue_unset h2,
        meaningfulValue_unset h3, meaningfulValue_unset h4,
        meaningfulValue_unset h5, meaningfulValue_unset h6,
        meaningfulValue_unset h7, meaningfulValue_unset h8,
        meaningfulValue_unset h9]
      rfl
    have hrt := runTry_no_meaningful q env pt leadId ld hid hconn hrows hval
    show (match (runTry (some { queryStringParameters := some q }) env pt).result with
      | .ok r => r
      | .error e => _) = _
    rw [hrt]

/-- Witness for the amended C3 at the concrete sentinel record. -/
theorem sentinel_record_amended_witness :
    prepareTextForEmbedding ldSentinel = "" ∧
    (handler (some { queryStringParameters := some { leadId := some "L1" } }) envSentinel 5).res =
      { statusCode := 200,
        body :=
          { leadId := some "L1",
            message := some "No meaningful data found for lead",
            matchList := some [], processingTime := some 5 } } :=
  sentinel_record_amended ldSentinel { leadId := some "L1" } envSentinel 5 "L1"
    ⟨Or.inr rfl, Or.inl rfl, Or.inl rfl, Or.inl rfl, Or.inl rfl, Or.inl rfl,
     Or.inl rfl, Or.inr rfl, Or.inl rfl⟩ rfl rfl rfl


/-! ## Evaluator response validation (C9, C2) -/

theorem validateMatchItem_ok_good {e : JsonVal} {it : MatchItem}
    (h : validateMatchItem e = .ok it) : goodItem e ∧ it = extractItem e := by
  unfold validateMatchItem at h
  rcases hm : jsGet e "mongoId" with _ | m <;> rw [hm] at h
  · exact Except.noConfusion h
  · rcases m with _ | w
    · exact Except.noConfusion h
    · cases w with
      | str s =>
        dsimp only at h
        by_cases hs : (s == "") = true
        · rw [if_pos hs] at h; exact Except.noConfusion h
        · rw [if_neg hs] at h
          rcases hr : jsGet e "reason" with _ | r <;> rw [hr] at h
          · exact Except.noConfusion h
          · rcases r with _ | w2
            · exact Except.noConfusion h
            · cases w2 with
              | str t =>
                dsimp only at h
                by_cases ht : (t == "") = true
                · rw [if_pos ht] at h; exact Except.noConfusion h
                · rw [if_neg ht] at h
                  injection h with h
                  subst h
                  refine ⟨⟨⟨s, hm, by simpa using hs⟩, ⟨t, hr, by simpa using ht⟩⟩, ?_⟩
                  unfold extractItem
                  rw [hm, hr]
              | null => exact Except.noConfusion h
              | bool b => exact Except.noConfusion h
              | num n => exact Except.noConfusion h
              | arr xs => exact Except.noConfusion h
              | obj fs => exact Except.noConfusion h
      | null => exact Except.noConfusion h
      | bool b => exact Except.noConfusion h
      | num n => exact Except.noConfusion h
      | arr xs => exact Except.noConfusion h
      | obj fs => exact Except.noConfusion h

theorem validateMatchItem_good_ok {e : JsonVal} (h : goodItem e) :
    validateMatchItem e = .ok (extractItem e) := by
  obtain ⟨⟨s, hm, hs⟩, ⟨t, hr, ht⟩⟩ := h
  unfold validateMatchItem extractItem
  rw [hm, hr]
  simp [hs, ht]

theorem validateMatchItem_error_shape {e : JsonVal} {err : PipelineError}
    (h : validateMatchItem e = .error err) : ∃ m, err = .openAIError m := by
  unfold validateMatchItem at h
  repeat' (first | split at h | dsimp only at h)
  all_goals first
    | exact Except.noConfusion h
    | (injection h with h; exact ⟨_, h.symm⟩)

theorem validateItems_error_shape :
    ∀ {xs : List JsonVal} {err : PipelineError},
      validateItems xs = .error err → ∃ m, err = .openAIError m := by
  intro xs
  induction xs with
  | nil => intro err h; exact Except.noConfusion h
  | cons e es ih =>
    intro err h
    unfold validateItems at h
    cases hv : validateMatchItem e with
    | error er =>
      rw [hv] at h
      injection h with h
      subst h
      exact validateMatchItem_error_shape hv
    | ok it =>
      rw [hv] at h
      cases hvs : validateItems es with
      | error er2 =>
        rw [hvs] at h
        injection h with h
        subst h
        exact ih hvs
      | ok its => rw [hvs] at h; exact Except.noConfusion h

theorem validateItems_ok_each :
    ∀ {xs : List JsonVal} {ms : List MatchItem}, validateItems xs = .ok ms →
      ∀ e ∈ xs, ∃ it, validateMatchItem e = .ok it := by
  intro xs
  induction xs with
  | nil => intro ms _ e he; exact absurd he (List.not_mem_nil e)
  | cons a es ih =>
    intro ms h e he
    unfold validateItems at h
    cases hv : validateMatchItem a with
    | error er => rw [hv] at h; exact Except.noConfusion h
    | ok it =>
      rw [hv] at h
      cases hvs : validateItems es with
      | error er2 => rw [hvs] at h; exact Except.noConfusion h
      | ok its =>
        rcases List.mem_cons.mp he with he | he
        · exact ⟨it, he ▸ hv⟩
        · exact ih hvs e he

theorem validateItems_ok_map :
    ∀ {xs : List JsonVal} {ms : List MatchItem}, validateItems xs = .ok ms →
      ms = xs.map extractItem := by
  intro xs
  induction xs with
  | nil =>
    intro ms h
    injection h with h
    exact h.symm
  | cons a es ih =>
    intro ms h
    unfold validateItems at h
    cases hv : validateMatchItem a with
    | error er => rw [hv] at h; exact Except.noConfusion h
    | ok it =>
      rw [hv] at h
      dsimp only at h
      cases hvs : validateItems es with
      | error er2 => rw [hvs] at h; exact Except.noConfusion h
      | ok its =>
        rw [hvs] at h
        dsimp only at h
        injection h with h
        subst h
        rw [List.map_cons, (validateMatchItem_ok_good hv).2, ih hvs]

theorem validateItems_of_good :
    ∀ {xs : List JsonVal}, (∀ e ∈ xs, goodItem e) →
      validateItems xs = .ok (xs.map extractItem) := by
  intro xs
  induction xs with
  | nil => intro _; rfl
  | cons a es ih =>
    intro h
    unfold validateItems
    rw [validateMatchItem_good_ok (h a (List.mem_cons_self a es)),
        ih (fun x hx => h x (List.mem_cons_of_mem a hx))]
    rfl


/-- C9: for every chat response (given the always-satisfied non-empty prompt
precondition), `getAIEvaluation` fails with an `OpenAIError` when the content
does not parse as JSON, when it lacks a `topMatches` array, or when some
element lacks a non-empty string `mongoId` or `reason`; otherwise it returns
the parsed matches unchanged. -/
theorem evaluator_response_validation (prompt : String)
    (hp1 : prompt ≠ "") (hp2 : jsTrim prompt ≠ "") :
    getAIEvaluation prompt (.message .unparseable) =
      .error (.openAIError "Failed to parse AI response as JSON") ∧
    (∀ v : JsonVal, (∀ xs : List JsonVal,
        jsGet v "topMatches" ≠ .val (some (.arr xs))) →
      ∃ m, getAIEvaluation prompt (.message (.json v)) =
        .error (.openAIError m)) ∧
    (∀ (v : JsonVal) (xs : List JsonVal) (e : JsonVal),
      jsGet v "topMatches" = .val (some (.arr xs)) → e ∈ xs → ¬ goodItem e →
      ∃ m, getAIEvaluation prompt (.message (.json v)) =
        .error (.openAIError m)) ∧
    (∀ (v : JsonVal) (xs : List JsonVal),
      jsGet v "topMatches" = .val (some (.arr xs)) → (∀ e ∈ xs, goodItem e) →
      getAIEvaluation prompt (.message (.json v)) = .ok (xs.map extractItem)) := by
  have hcond : (prompt == "" || jsTrim prompt == "") = false := by
    simp [hp1, hp2]
  have hjson : ∀ v : JsonVal,
      getAIEvaluation prompt (.message (.json v)) = parseEvaluationContent v := by
    intro v
    unfold getAIEvaluation
    rw [hcond]
    rfl
  refine ⟨?_, ?_, ?_, ?_⟩
  · unfold getAIEvaluation
    rw [hcond]
    rfl
  · intro v hne
    rw [hjson]
    unfold parseEvaluationContent
    rcases hjg : jsGet v "topMatches" with _ | tm
    · exact ⟨_, rfl⟩
    · rcases tm with _ | w
      · exact ⟨_, rfl⟩
      · cases w with
        | arr xs => exact absurd hjg (hne xs)
        | null => exact ⟨_, rfl⟩
        | bool b => exact ⟨_, rfl⟩
        | num n => exact ⟨_, rfl⟩
        | str t => exact ⟨_, rfl⟩
        | obj fs => exact ⟨_, rfl⟩
  · intro v xs e hjg he hbad
    rw [hjson]
    unfold parseEvaluationContent
    rw [hjg]
    cases hvi : validateItems xs with
    | error err =>
      obtain ⟨m, hm⟩ := validateItems_error_shape hvi
      exact ⟨m, by rw [hm] at hvi; exact hvi⟩
    | ok ms =>
      obtain ⟨it, hit⟩ := validateItems_ok_each hvi e he
      exact absurd (validateMatchItem_ok_good hit).1 hbad
  · intro v xs hjg hgood
    rw [hjson]
    unfold parseEvaluationContent
    rw [hjg]
    exact validateItems_of_good hgood

/-- Witness for C9 at a concrete prompt and concrete responses. -/
theorem evaluator_response_validation_witness :
    getAIEvaluation "p" (.message .unparseable) =
      .error (.openAIError "Failed to parse AI response as JSON") ∧
    (∃ m, getAIEvaluation "p" (.message (.json (.str "x"))) =
      .error (.openAIError m)) ∧
    (∃ m, getAIEvaluation "p" (.message (.json (.obj [("topMatches",
      .arr [.obj [("mongoId", .str "")]])]))) = .error (.openAIError m)) ∧
    getAIEvaluation "p" (.message (.json (.obj [("topMatches",
      .arr [.obj [("mongoId", .str "A"), ("reason", .str "r")]])]))) =
      .ok [{ mongoId := "A", reason := "r" }] := by
  have h := evaluator_response_validation "p" (by decide)
    (jsTrim_ne_empty (c := 'p') (by decide) (by decide))
  refine ⟨h.1, ?_, ?_, ?_⟩
  · exact h.2.1 (.str "x") (by intro xs hx; simp [jsGet] at hx)
  · exact h.2.2.1 _ [.obj [("mongoId", .str "")]] (.obj [("mongoId", .str "")])
      rfl (List.mem_singleton_self _) (by
        rintro ⟨⟨sid, hsid, hne⟩, _⟩
        rw [show jsGet (.obj [("mongoId", JsonVal.str "")]) "mongoId" =
          .val (some (.str "")) from rfl] at hsid
        injection hsid with hsid
        injection hsid with hsid
        injection hsid with hsid
        exact hne hsid.symm)
  · have h4 := h.2.2.2 (.obj [("topMatches",
      .arr [.obj [("mongoId", .str "A"), ("reason", .str "r")]])])
      [.obj [("mongoId", .str "A"), ("reason", .str "r")]] rfl (by
        intro e he
        rw [List.mem_singleton] at he
        subst he
        exact ⟨⟨"A", rfl, by decide⟩, ⟨"r", rfl, by decide⟩⟩)
    exact h4


/-- C2 counterexample: with the single candidate `"A"`, a model response
naming `"B"` is returned as-is by `getAIEvaluation`, although `"B"` is not
among the candidate identifiers — the evaluator does not enforce
containment. -/
theorem evaluator_containment_counterexample :
    getAIEvaluation (preparePrompt "profile" [stuA] 10) respB =
      .ok [{ mongoId := "B", reason := "r" }] ∧
    "B" ∉ [stuA].map (fun s => s.mongo_id) := by
  constructor
  · rw [getAIEvaluation_prompt]
    rfl
  · decide

/-- C2 amended: `getAIEvaluation` returns the model response's matches
unchanged (it never filters identifiers against the candidates); containment
of the returned identifiers in the candidate set holds exactly when the
response's own identifiers are drawn from it. -/
theorem evaluator_containment_amended (text : String)
    (cs : List SimilarStudent) (lim : Int) (resp : ChatResponse)
    (ms : List MatchItem)
    (h : getAIEvaluation (preparePrompt text cs lim) resp = .ok ms) :
    ∃ v xs, resp = ChatResponse.message (.json v) ∧
      jsGet v "topMatches" = .val (some (.arr xs)) ∧
      ms = xs.map extractItem ∧
      ((∀ e ∈ xs, (extractItem e).mongoId ∈ cs.map (fun s => s.mongo_id)) →
        ∀ m ∈ ms, m.mongoId ∈ cs.map (fun s => s.mongo_id)) := by
  rw [getAIEvaluation_prompt] at h
  cases resp with
  | threw => exact Except.noConfusion h
  | invalid => exact Except.noConfusion h
  | message c =>
    cases c with
    | empty => exact Except.noConfusion h
    | unparseable => exact Except.noConfusion h
    | json v =>
      refine ⟨v, ?_⟩
      dsimp only at h
      unfold parseEvaluationContent at h
      rcases hjg : jsGet v "topMatches" with _ | tm <;> rw [hjg] at h
      · exact Except.noConfusion h
      · rcases tm with _ | w
        · exact Except.noConfusion h
        · cases w with
          | arr xs =>
            dsimp only at h
            have hmap := validateItems_ok_map h
            refine ⟨xs, rfl, rfl, hmap, ?_⟩
            intro hin m hm
            subst hmap
            rcases List.mem_map.mp hm with ⟨e, he, hex⟩
            rw [← hex]
            exact hin e he
          | null => exact Except.noConfusion h
          | bool b => exact Except.noConfusion h
          | num n => exact Except.noConfusion h
          | str t => exact Except.noConfusion h
          | obj fs => exact Except.noConfusion h

/-- Witness for the amended C2: a response naming only the candidate. -/
theorem evaluator_containment_witness :
    ∃ v xs, respA = ChatResponse.message (.json v) ∧
      jsGet v "topMatches" = .val (some (.arr xs)) ∧
      [({ mongoId := "A", reason := "r" } : MatchItem)] = xs.map extractItem ∧
      ((∀ e ∈ xs, (extractItem e).mongoId ∈ [stuA].map (fun s => s.mongo_id)) →
        ∀ m ∈ [({ mongoId := "A", reason := "r" } : MatchItem)],
          m.mongoId ∈ [stuA].map (fun s => s.mongo_id)) :=
  evaluator_containment_amended "p" [stuA] 10 respA
    [{ mongoId := "A", reason := "r" }] (by rw [getAIEvaluation_prompt]; rfl)


/-! ## Idempotent upsert (C1) -/

theorem any_conflict_filter (leadId x : String) (t : List MatchRow) :
    (rowsFor t leadId).any (fun r => r.lead_id == leadId && r.mongo_id == x) =
      t.any (fun r => r.lead_id == leadId && r.mongo_id == x) := by
  induction t with
  | nil => rfl
  | cons r t ih =>
    unfold rowsFor at ih ⊢
    by_cases hr : (r.lead_id == leadId) = true
    · simp only [List.filter_cons, hr, if_true, List.any_cons, ih]
    · simp only [List.filter_cons, hr, Bool.false_eq_true, if_false, List.any_cons, ih,
        Bool.false_and, Bool.false_or]

theorem rowsFor_append_row (t : List MatchRow) (leadId mid rsn : String) :
    rowsFor (t ++ [{ lead_id := leadId, mongo_id := mid, reason := rsn }]) leadId =
      rowsFor t leadId ++ [{ lead_id := leadId, mongo_id := mid, reason := rsn }] := by
  unfold rowsFor
  rw [List.filter_append]
  simp

theorem rowsFor_insertRows (leadId : String) (ms : List MatchItem) :
    ∀ t : List MatchRow,
      rowsFor (insertRows leadId t ms) leadId =
        insertRows leadId (rowsFor t leadId) ms := by
  induction ms with
  | nil => intro t; rfl
  | cons m ms ih =>
    intro t
    by_cases hc : (t.any fun r => r.lead_id == leadId && r.mongo_id == m.mongoId) = true
    · have e1 : insertRows leadId t (m :: ms) = insertRows leadId t ms := by
        rw [insertRows, if_pos hc]
      have e2 : insertRows leadId (rowsFor t leadId) (m :: ms) =
          insertRows leadId (rowsFor t leadId) ms := by
        rw [insertRows, if_pos (by rw [any_conflict_filter]; exact hc)]
      rw [e1, e2]
      exact ih t
    · have e1 : insertRows leadId t (m :: ms) = insertRows leadId
          (t ++ [{ lead_id := leadId, mongo_id := m.mongoId, reason := m.reason }]) ms := by
        rw [insertRows, if_neg hc]
      have e2 : insertRows leadId (rowsFor t leadId) (m :: ms) = insertRows leadId
          (rowsFor t leadId ++ [{ lead_id := leadId, mongo_id := m.mongoId, reason := m.reason }]) ms := by
        rw [insertRows, if_neg (by rw [any_conflict_filter]; exact hc)]
      rw [e1, e2, ih, rowsFor_append_row]

theorem rowsFor_delete (t : List MatchRow) (leadId : String) :
    rowsFor (t.filter (fun r => r.lead_id != leadId)) leadId = [] := by
  unfold rowsFor
  induction t with
  | nil => rfl
  | cons r t ih =>
    by_cases hr : (r.lead_id == leadId) = true
    · have hne : (r.lead_id != leadId) = false := by simp [bne, hr]
      simp only [List.filter_cons, hne, Bool.false_eq_true, if_false, ih]
    · have hr' : (r.lead_id == leadId) = false := by simpa using hr
      have hne : (r.lead_id != leadId) = true := by simp [bne, hr']
      simp only [List.filter_cons, hne, if_true, hr', Bool.false_eq_true, if_false]
      exact ih


theorem insertRows_ids (leadId : String) :
    ∀ (ms : List MatchItem) (acc : List MatchRow),
      (∀ r ∈ acc, r.lead_id = leadId) →
      (insertRows leadId acc ms).map (fun r => r.mongo_id) =
        insertIds (acc.map (fun r => r.mongo_id)) (ms.map (fun m => m.mongoId)) := by
  intro ms
  induction ms with
  | nil => intro acc _; rfl
  | cons m ms ih =>
    intro acc h
    by_cases hmem : m.mongoId ∈ acc.map (fun r => r.mongo_id)
    · have hc : (acc.any fun r => r.lead_id == leadId && r.mongo_id == m.mongoId) = true := by
        rcases List.mem_map.mp hmem with ⟨r, hr, hrm⟩
        exact List.any_eq_true.mpr ⟨r, hr, by simp [h r hr, hrm]⟩
      rw [insertRows, if_pos hc, List.map_cons, insertIds, if_pos hmem]
      exact ih acc h
    · have hc : (acc.any fun r => r.lead_id == leadId && r.mongo_id == m.mongoId) = false := by
        rw [Bool.eq_false_iff]
        intro hany
        rcases List.any_eq_true.mp hany with ⟨r, hr, hrb⟩
        simp only [Bool.and_eq_true] at hrb
        exact hmem (List.mem_map.mpr ⟨r, hr, beq_iff_eq.mp hrb.2⟩)
      rw [insertRows, if_neg (by simp [hc]), List.map_cons, insertIds, if_neg hmem]
      have hstep := ih (acc ++ [{ lead_id := leadId, mongo_id := m.mongoId, reason := m.reason }])
        (by
          intro r hr
          rcases List.mem_append.mp hr with hr | hr
          · exact h r hr
          · rw [List.mem_singleton] at hr
            rw [hr])
      rw [hstep, List.map_append]
      rfl

theorem insertIds_spec (xs : List String) :
    ∀ acc : List String, acc.Nodup →
      (insertIds acc xs).Nodup ∧
      (insertIds acc xs).toFinset = acc.toFinset ∪ xs.toFinset := by
  induction xs with
  | nil => intro acc h; exact ⟨h, by simp [insertIds]⟩
  | cons x xs ih =>
    intro acc h
    by_cases hx : x ∈ acc
    · rw [insertIds, if_pos hx]
      obtain ⟨h1, h2⟩ := ih acc h
      refine ⟨h1, ?_⟩
      rw [h2, List.toFinset_cons]
      ext a
      have hax : a = x → a ∈ acc := fun hb => hb ▸ hx
      simp only [Finset.mem_union, Finset.mem_insert, List.mem_toFinset]
      tauto
    · rw [insertIds, if_neg hx]
      have hnd : (acc ++ [x]).Nodup := by
        simp [List.nodup_append, h, hx]
      obtain ⟨h1, h2⟩ := ih (acc ++ [x]) hnd
      refine ⟨h1, ?_⟩
      rw [h2]
      ext a
      simp only [List.toFinset_append, List.toFinset_cons, List.toFinset_nil,
        Finset.mem_union, Finset.mem_insert, Finset.not_mem_empty, or_false,
        List.mem_toFinset]
      tauto

theorem insertIds_nil_length (xs : List String) :
    (insertIds [] xs).length = xs.dedup.length := by
  obtain ⟨h1, h2⟩ := insertIds_spec xs [] List.nodup_nil
  calc (insertIds [] xs).length
      = (insertIds [] xs).toFinset.card := (List.toFinset_card_of_nodup h1).symm
    _ = xs.toFinset.card := by rw [h2]; simp
    _ = xs.dedup.length := List.card_toFinset xs

/-- C1 counterexample: with one stored row for record `"L"` and an empty new
match list, `insertMatchedStudents` is a no-op — it deletes nothing and
leaves one row, so the row count (1) differs from the new match count (0). -/
theorem upsert_empty_counterexample :
    insertMatchedStudents true [rowM] "L" [] = [rowM] ∧
    (rowsFor (insertMatchedStudents true [rowM] "L" []) "L").length = 1 :=
  ⟨rfl, rfl⟩

/-- C1 amended: for a nonempty match list the upsert is delete-then-insert
and idempotent — a second run with the same matches leaves exactly the same
rows for the record, whose count is the number of distinct matched
identifiers (equal to the match count when identifiers are distinct); an
empty match list is a no-op that leaves prior rows intact. -/
theorem upsert_idempotent_amended (table : List MatchRow) (leadId : String)
    (ms : List MatchItem) (h : ms ≠ []) :
    rowsFor (insertMatchedStudents true
        (insertMatchedStudents true table leadId ms) leadId ms) leadId =
      rowsFor (insertMatchedStudents true table leadId ms) leadId ∧
    (rowsFor (insertMatchedStudents true table leadId ms) leadId).length =
      (ms.map (fun m => m.mongoId)).dedup.length ∧
    ((ms.map (fun m => m.mongoId)).Nodup →
      (rowsFor (insertMatchedStudents true table leadId ms) leadId).length =
        ms.length) ∧
    insertMatchedStudents true table leadId [] = table := by
  have hne : ¬(ms.isEmpty = true) := by simpa using h
  have key : ∀ t : List MatchRow,
      rowsFor (insertMatchedStudents true t leadId ms) leadId =
        insertRows leadId [] ms := by
    intro t
    unfold insertMatchedStudents
    rw [if_neg hne]
    dsimp only
    rw [if_pos rfl, rowsFor_insertRows, rowsFor_delete]
  have hcount : (insertRows leadId [] ms).length =
      (ms.map (fun m => m.mongoId)).dedup.length := by
    have hmap := insertRows_ids leadId ms [] (by intro r hr; cases hr)
    simp only [List.map_nil] at hmap
    have h1 : ((insertRows leadId [] ms).map (fun r => r.mongo_id)).length =
        (insertRows leadId [] ms).length := by simp
    rw [← h1, hmap, insertIds_nil_length]
  refine ⟨?_, ?_, ?_, rfl⟩
  · rw [key, key]
  · rw [key, hcount]
  · intro hnd
    rw [key, hcount, List.dedup_eq_self.mpr hnd]
    simp

/-- Witness for the amended C1 at a concrete table and match list. -/
theorem upsert_idempotent_witness :
    rowsFor (insertMatchedStudents true
        (insertMatchedStudents true [rowM] "L" msAB) "L" msAB) "L" =
      rowsFor (insertMatchedStudents true [rowM] "L" msAB) "L" ∧
    (rowsFor (insertMatchedStudents true [rowM] "L" msAB) "L").length =
      (msAB.map (fun m => m.mongoId)).dedup.length ∧
    ((msAB.map (fun m => m.mongoId)).Nodup →
      (rowsFor (insertMatchedStudents true [rowM] "L" msAB) "L").length =
        msAB.length) ∧
    insertMatchedStudents true [rowM] "L" [] = [rowM] :=
  upsert_idempotent_amended [rowM] "L" msAB (by decide)


/-- Witness for C5 at a concrete record and emitted line. -/
theorem prepareText_projection_witness :
    prepareTextForEmbedding ldMeaningful =
      joinStrings ((semanticFields ldMeaningful).filterMap emitted) ∧
    ∃ p ∈ semanticFields ldMeaningful, ∃ v, p.2 = some v ∧ v ≠ "" ∧ v ≠ "-" ∧
      "Bachelor School: NTU" = p.1 ++ ": " ++ v :=
  ⟨(prepareText_projection ldMeaningful).1,
   (prepareText_projection ldMeaningful).2 "Bachelor School: NTU" (by decide)⟩

end SimilarStudents
